import Mathlib

/-!
# hellobchain/minio-sdk: the client facade over a MinIO backend

A shallow embedding of `common/errors/errors.go`, `common/models/models.go` and
`common/client/client.go`.

* Go `error` values are the trees of `GoError`; `nil` is `none`.
* The `minio-go` client, the local filesystem, `io.Copy`/`io.ReadAll` and the
  logger are external collaborators.  They are embedded as a recording test
  double (`World`): every call is appended to a trace and answered from the
  double's configured responses, so that the facade can be run on any
  combination of backend answers.
* A Go method with a pointer receiver that may touch the outside world becomes
  a function `World → result × World`.
* `*minio.Client` and `*models.Config` are pointers and may be `nil`
  (`Option`); dereferencing a nil pointer is the outcome `Outcome.panic`.
  Interface values handed in by the caller (logger, reader, writer, context)
  are taken to be non-nil.
-/

namespace MinioSdk

/-! ## Go error values -/

/-- Go error values that occur around the facade.
* `errorString`: the value of `errors.New(text)`, also of `fmt.Errorf` with no `%w` verb;
* `errorResponse`: a `minio.ErrorResponse` (only `Code` and `Message` are kept);
* `errno`: a `syscall.Errno`;
* `pathError`: an `*fs.PathError`, as `os.Stat` and `os.MkdirAll` return;
* `wrapError`: the value of `fmt.Errorf` with one `%w` verb: `msg` is the formatted
  text, `err` the operand of `%w` (what `Unwrap` returns).
Two errors are the same value when the trees are equal. -/
inductive GoError where
  | errorString (text : String)
  | errorResponse (code : String) (message : String)
  | errno (n : Nat)
  | pathError (op : String) (path : String) (err : GoError)
  | wrapError (msg : String) (err : GoError)
deriving DecidableEq, Repr

/-- Text of a `syscall.Errno` (the entries the development names). -/
def errnoText : Nat → String
  | 2 => "no such file or directory"
  | 13 => "permission denied"
  | 20 => "not a directory"
  | n => "errno " ++ toString n

/-- The `Error()` method. -/
def GoError.Error : GoError → String
  | .errorString text => text
  | .errorResponse code message =>
      if message = "" then "Error response code " ++ code ++ "." else message
  | .errno n => errnoText n
  | .pathError op path err => op ++ " " ++ path ++ ": " ++ err.Error
  | .wrapError msg _ => msg

/-- The `Unwrap()` method, where the error type has one. -/
def GoError.Unwrap : GoError → Option GoError
  | .pathError _ _ err => some err
  | .wrapError _ err => some err
  | _ => none

/-- `oserror.ErrNotExist` (`fs.ErrNotExist`). -/
def ErrNotExist : GoError := .errorString "file does not exist"

/-- `oserror.ErrPermission`. -/
def ErrPermission : GoError := .errorString "permission denied"

/-- `oserror.ErrExist`. -/
def ErrExist : GoError := .errorString "file already exists"

/-- `errors.ErrUnsupported`. -/
def ErrUnsupported : GoError := .errorString "unsupported operation"

/-- `syscall.Errno.Is`: the `Is` method of an errno (linux numbers: `EACCES` 13,
`EPERM` 1, `EEXIST` 17, `ENOTEMPTY` 39, `ENOENT` 2, `ENOSYS` 38, `ENOTSUP` 95). -/
def errnoIs (n : Nat) (target : GoError) : Bool :=
  if target = ErrPermission then n == 13 || n == 1
  else if target = ErrExist then n == 17 || n == 39
  else if target = ErrNotExist then n == 2
  else if target = ErrUnsupported then n == 38 || n == 95
  else false

/-- `errors.Is(err, target)`: walk the `Unwrap` chain of `err`, comparing each
element with `target` and asking its `Is` method when it has one. -/
def errorsIs : GoError → GoError → Bool
  | .wrapError msg err, target =>
      decide (GoError.wrapError msg err = target) || errorsIs err target
  | .pathError op path err, target =>
      decide (GoError.pathError op path err = target) || errorsIs err target
  | .errno n, target => decide (GoError.errno n = target) || errnoIs n target
  | err, target => decide (err = target)

/-- `os.underlyingError`: the error inside a `*PathError`. -/
def underlyingError : GoError → GoError
  | .pathError _ _ err => err
  | err => err

/-- `os.IsNotExist(err)`; `none` is the nil error. -/
def IsNotExist : Option GoError → Bool
  | none => false
  | some err =>
      match underlyingError err with
      | .errno n => decide (GoError.errno n = ErrNotExist) || errnoIs n ErrNotExist
      | e => decide (e = ErrNotExist)

/-- `minio.ToErrorResponse(err).Code`: the code of an `ErrorResponse`, the empty
string for every other error (the zero `ErrorResponse`). -/
def ToErrorResponseCode : GoError → String
  | .errorResponse code _ => code
  | _ => ""

/-- `fmt.Errorf(text + "%w", err)`: the message is `text` followed by the text of
`err`, and the new error wraps `err`. -/
def Errorf_w (text : String) (err : GoError) : GoError :=
  .wrapError (text ++ err.Error) err

/-- `fmt.Errorf("%w: %v", kind, err)`: the message is the text of `kind`, a colon and
the text of `err`; the new error wraps `kind`, the operand of `%w`, and keeps of
`err`, the operand of `%v`, the text only. -/
def Errorf_w_v (kind err : GoError) : GoError :=
  .wrapError (kind.Error ++ ": " ++ err.Error) kind

/-- `fmt.Errorf(text + "%s", arg)`: no `%w`, the result is a plain error. -/
def Errorf_s (text arg : String) : GoError :=
  .errorString (text ++ arg)

/-! ## `common/errors` -/

namespace errors

def ErrClientNotInitialized : GoError := .errorString "minio client not initialized"
def ErrBucketNotExists : GoError := .errorString "bucket does not exist"
def ErrObjectNotExists : GoError := .errorString "object does not exist"
def ErrUploadFailed : GoError := .errorString "file upload failed"
def ErrDownloadFailed : GoError := .errorString "file download failed"
def ErrInvalidConfig : GoError := .errorString "invalid configuration"

end errors

/-! ## `common/models` -/

namespace models

/-- A Go `map[string]string`: `none` is the nil map. -/
abbrev StringMap := Option (List (String × String))

structure Config where
  Endpoint : String
  AccessKeyID : String
  SecretAccessKey : String
  UseSSL : Bool
  BucketName : String
  Region : String
deriving DecidableEq, Repr

structure UploadOptions where
  ContentType : String
  UserMetadata : StringMap
deriving DecidableEq, Repr

structure DownloadOptions where
  VersionID : String
deriving DecidableEq, Repr

structure UploadResult where
  ETag : String
  VersionID : String
  Size : Int
  LastModified : String
deriving DecidableEq, Repr

structure ObjectInfo where
  Key : String
  Size : Int
  LastModified : String
  ETag : String
  ContentType : String
  UserMetadata : StringMap
deriving DecidableEq, Repr

end models

/-! ## The external collaborators -/

/-- A `time.Time`, kept as the text `Format(time.RFC3339)` gives. -/
structure Time where
  rfc3339 : String
deriving DecidableEq, Repr

/-- `t.Format(time.RFC3339)`. -/
def Time.Format (t : Time) : String := t.rfc3339

/-- The fields of `minio.PutObjectOptions` the facade sets; the zero value is the
backend default. -/
structure PutObjectOptions where
  ContentType : String
  UserMetadata : models.StringMap
deriving DecidableEq, Repr

/-- The field of `minio.GetObjectOptions` the facade sets. -/
structure GetObjectOptions where
  VersionID : String
deriving DecidableEq, Repr

/-- The fields of `minio.UploadInfo` the facade reads. -/
structure UploadInfo where
  ETag : String
  VersionID : String
  Size : Int
  LastModified : Time
deriving DecidableEq, Repr

/-- The fields of `minio.ObjectInfo` the facade reads. -/
structure MinioObjectInfo where
  Size : Int
  LastModified : Time
  ETag : String
  ContentType : String
  UserMetadata : models.StringMap
deriving DecidableEq, Repr

/-- A `*minio.Object` stream: the bytes it yields, then end of file or the read
error `readErr`. -/
structure Object where
  data : List Nat
  readErr : Option GoError
deriving DecidableEq, Repr

/-- An `io.Writer` destination: the bytes it has accepted, and, when `fail` is
`some (n, e)`, that it accepts `n` more bytes and then fails with `e`. -/
structure Writer where
  written : List Nat
  fail : Option (Nat × GoError)
deriving DecidableEq, Repr

/-- A call on the `minio-go` client, with its arguments (the context apart). -/
inductive Call where
  | New (endpoint accessKeyID secretAccessKey : String) (secure : Bool)
  | BucketExists (bucketName : String)
  | MakeBucket (bucketName region : String)
  | FPutObject (bucketName objectName filePath : String) (opts : PutObjectOptions)
  | PutObject (bucketName objectName : String) (reader : List Nat) (size : Int)
      (opts : PutObjectOptions)
  | FGetObject (bucketName objectName filePath : String) (opts : GetObjectOptions)
  | GetObject (bucketName objectName : String) (opts : GetObjectOptions)
  | StatObject (bucketName objectName : String)
  | RemoveObject (bucketName objectName : String)
  | Close (bucketName objectName : String)
deriving DecidableEq, Repr

/-- The backend test double.  `buckets` is the set of buckets the service holds
and `calls` the trace of calls received so far.  The rest is its configuration:
`fault call` is the error `call` is made to fail with (`none`: the call goes
through), and `uploadInfo`, `objectInfo`, `object` are what a put, a stat and a
get that go through report. -/
structure Backend where
  buckets : List String
  calls : List Call
  fault : Call → Option GoError
  uploadInfo : Call → UploadInfo
  objectInfo : Call → MinioObjectInfo
  object : Call → Object

/-- An access to the local filesystem. -/
inductive FsCall where
  | Stat (name : String)
  | MkdirAll (path : String) (perm : Nat)
deriving DecidableEq, Repr

/-- The local filesystem double: the answers of `os.Stat` and `os.MkdirAll`
(`none`: success), the platform's `filepath.Dir`, and the trace of accesses. -/
structure FileSystem where
  stat : String → Option GoError
  mkdirAll : String → Option GoError
  dir : String → String
  accesses : List FsCall

/-- A value handed to `Print`. -/
inductive LogVal where
  | str (s : String)
  | err (e : GoError)
deriving DecidableEq, Repr

/-- A value of the interface type `logger`: the package's `*defaultLogger`, or a
logger of the caller's. -/
inductive Logger where
  | defaultLogger
  | custom (id : Nat)
deriving DecidableEq, Repr

/-- Everything outside the client value. -/
structure World where
  backend : Backend
  fs : FileSystem
  log : List (Logger × List LogVal)
  now : Time

/-- `l.Print(v...)`: the line goes to the log. -/
def Logger.Print (l : Logger) (v : List LogVal) (w : World) : World :=
  { w with log := w.log ++ [(l, v)] }

/-- The double takes note of a call. -/
def World.record (w : World) (call : Call) : World :=
  { w with backend := { w.backend with calls := w.backend.calls ++ [call] } }

/-- A `*minio.Client`: what `minio.New` was given. -/
structure MinioClient where
  endpoint : String
  accessKeyID : String
  secretAccessKey : String
  secure : Bool
deriving DecidableEq, Repr

/-- `minio.New(endpoint, &minio.Options{Creds: NewStaticV4(id, secret, ""), Secure: secure})`. -/
def minioNew (endpoint accessKeyID secretAccessKey : String) (secure : Bool) (w : World) :
    Except GoError MinioClient × World :=
  let call := Call.New endpoint accessKeyID secretAccessKey secure
  match w.backend.fault call with
  | some err => (.error err, w.record call)
  | none => (.ok ⟨endpoint, accessKeyID, secretAccessKey, secure⟩, w.record call)

/-- `(*minio.Client).BucketExists`: a query, it reports whether the service holds
the bucket. -/
def MinioClient.BucketExists (_h : MinioClient) (bucketName : String) (w : World) :
    Except GoError Bool × World :=
  let call := Call.BucketExists bucketName
  match w.backend.fault call with
  | some err => (.error err, w.record call)
  | none => (.ok (w.backend.buckets.contains bucketName), w.record call)

/-- `(*minio.Client).MakeBucket`: the service gets the bucket, unless it holds it
already. -/
def MinioClient.MakeBucket (_h : MinioClient) (bucketName region : String) (w : World) :
    Option GoError × World :=
  let call := Call.MakeBucket bucketName region
  match w.backend.fault call with
  | some err => (some err, w.record call)
  | none =>
      if w.backend.buckets.contains bucketName then
        (some (.errorResponse "BucketAlreadyOwnedByYou"
          "Your previous request to create the named bucket succeeded and you already own it."),
          w.record call)
      else
        let w1 := w.record call
        (none, { w1 with backend := { w1.backend with buckets := bucketName :: w1.backend.buckets } })

/-- `(*minio.Client).FPutObject`. -/
def MinioClient.FPutObject (_h : MinioClient) (bucketName objectName filePath : String)
    (opts : PutObjectOptions) (w : World) : Except GoError UploadInfo × World :=
  let call := Call.FPutObject bucketName objectName filePath opts
  match w.backend.fault call with
  | some err => (.error err, w.record call)
  | none => (.ok (w.backend.uploadInfo call), w.record call)

/-- `(*minio.Client).PutObject`. -/
def MinioClient.PutObject (_h : MinioClient) (bucketName objectName : String)
    (reader : List Nat) (size : Int) (opts : PutObjectOptions) (w : World) :
    Except GoError UploadInfo × World :=
  let call := Call.PutObject bucketName objectName reader size opts
  match w.backend.fault call with
  | some err => (.error err, w.record call)
  | none => (.ok (w.backend.uploadInfo call), w.record call)

/-- `(*minio.Client).FGetObject`. -/
def MinioClient.FGetObject (_h : MinioClient) (bucketName objectName filePath : String)
    (opts : GetObjectOptions) (w : World) : Option GoError × World :=
  let call := Call.FGetObject bucketName objectName filePath opts
  (w.backend.fault call, w.record call)

/-- `(*minio.Client).GetObject`. -/
def MinioClient.GetObject (_h : MinioClient) (bucketName objectName : String)
    (opts : GetObjectOptions) (w : World) : Except GoError Object × World :=
  let call := Call.GetObject bucketName objectName opts
  match w.backend.fault call with
  | some err => (.error err, w.record call)
  | none => (.ok (w.backend.object call), w.record call)

/-- `(*minio.Client).StatObject` with the zero `StatObjectOptions`. -/
def MinioClient.StatObject (_h : MinioClient) (bucketName objectName : String) (w : World) :
    Except GoError MinioObjectInfo × World :=
  let call := Call.StatObject bucketName objectName
  match w.backend.fault call with
  | some err => (.error err, w.record call)
  | none => (.ok (w.backend.objectInfo call), w.record call)

/-- `(*minio.Client).RemoveObject` with the zero `RemoveObjectOptions`. -/
def MinioClient.RemoveObject (_h : MinioClient) (bucketName objectName : String) (w : World) :
    Option GoError × World :=
  let call := Call.RemoveObject bucketName objectName
  (w.backend.fault call, w.record call)

/-- `(*minio.Object).Close` of the stream opened for `bucketName/objectName`. -/
def objectClose (bucketName objectName : String) (w : World) : World :=
  w.record (Call.Close bucketName objectName)

/-- `os.Stat(name)`, the file information dropped. -/
def osStat (name : String) (w : World) : Option GoError × World :=
  (w.fs.stat name, { w with fs := { w.fs with accesses := w.fs.accesses ++ [FsCall.Stat name] } })

/-- `os.MkdirAll(path, perm)`. -/
def osMkdirAll (path : String) (perm : Nat) (w : World) : Option GoError × World :=
  (w.fs.mkdirAll path,
    { w with fs := { w.fs with accesses := w.fs.accesses ++ [FsCall.MkdirAll path perm] } })

/-- `io.Copy(dst, src)`: the bytes of the stream go to the writer until the writer
refuses; a read error of the stream comes after its bytes. -/
def ioCopy (dst : Writer) (src : Object) : Option GoError × Writer :=
  match dst.fail with
  | none => (src.readErr, { dst with written := dst.written ++ src.data })
  | some (n, e) =>
      if n < src.data.length then
        (some e, { written := dst.written ++ src.data.take n, fail := some (0, e) })
      else
        (src.readErr,
          { written := dst.written ++ src.data, fail := some (n - src.data.length, e) })

/-- `io.ReadAll(src)`. -/
def ioReadAll (src : Object) : List Nat × Option GoError :=
  (src.data, src.readErr)

/-! ## `common/client` -/

/-- How a call ends: it returns `v`, or the goroutine panics (a nil pointer is
dereferenced). -/
inductive Outcome (α : Type) where
  | ret (v : α)
  | panic
deriving DecidableEq, Repr

/-- The struct `Client`. -/
structure Client where
  client : Option MinioClient
  config : Option models.Config
  bucketName : String
  logger : Logger
deriving DecidableEq, Repr

def Client.SetLogger (c : Client) (logger : Logger) : Client :=
  { c with logger := logger }

def Client.EnsureBucketExists (c : Client) (w : World) : Outcome (Option GoError) × World :=
  match c.client with
  | none => (.ret (some errors.ErrClientNotInitialized), w)
  | some h =>
      match h.BucketExists c.bucketName w with
      | (.error err, w1) =>
          let w2 := c.logger.Print [.str "Failed to check bucket existence:", .err err] w1
          (.ret (some (Errorf_w "failed to check bucket existence: " err)), w2)
      | (.ok «exists», w1) =>
          if !«exists» then
            match c.config with
            | none => (.panic, w1)
            | some config =>
                let region := if config.Region = "" then "us-east-1" else config.Region
                match h.MakeBucket c.bucketName region w1 with
                | (some err, w2) =>
                    let w3 := c.logger.Print [.str "Failed to create bucket:", .err err] w2
                    (.ret (some (Errorf_w "failed to create bucket: " err)), w3)
                | (none, w2) => (.ret none, w2)
          else (.ret none, w1)

def NewClient (config : Option models.Config) (w : World) :
    Outcome (Option Client × Option GoError) × World :=
  let client : Client :=
    { client := none, config := none, bucketName := "", logger := .defaultLogger }
  let w1 := client.logger.Print [.str "Creating new MinIO client"] w
  match config with
  | none => (.panic, w1)
  | some config =>
      if config.Endpoint = "" ∨ config.AccessKeyID = "" ∨ config.SecretAccessKey = "" then
        let w2 := client.logger.Print [.str "Invalid configuration"] w1
        (.ret (none, some errors.ErrInvalidConfig), w2)
      else
        match minioNew config.Endpoint config.AccessKeyID config.SecretAccessKey
            config.UseSSL w1 with
        | (.error err, w2) =>
            let w3 := client.logger.Print [.str "Failed to create minio client:", .err err] w2
            (.ret (none, some (Errorf_w "failed to create minio client: " err)),
              w3)
        | (.ok minioClient, w2) =>
            let client : Client :=
              { client := some minioClient, config := some config,
                bucketName := config.BucketName, logger := .defaultLogger }
            if config.BucketName ≠ "" then
              match client.EnsureBucketExists w2 with
              | (.ret (some err), w3) =>
                  let w4 :=
                    client.logger.Print [.str "Failed to ensure bucket existence:", .err err] w3
                  (.ret (none, some err), w4)
              | (.ret none, w3) => (.ret (some client, none), w3)
              | (.panic, w3) => (.panic, w3)
            else (.ret (some client, none), w2)

def Client.UploadFile (c : Client) (objectName filePath : String)
    (opts : List models.UploadOptions) (w : World) :
    (Option models.UploadResult × Option GoError) × World :=
  match c.client with
  | none => ((none, some errors.ErrClientNotInitialized), w)
  | some h =>
      match osStat filePath w with
      | (err, w1) =>
          if IsNotExist err then
            let w2 := c.logger.Print [.str "File not found:", .str filePath] w1
            ((none, some (Errorf_s "file not found: " filePath)), w2)
          else
            let uploadOpts : models.UploadOptions :=
              match opts with
              | o :: _ => o
              | [] => { ContentType := "", UserMetadata := none }
            let minioPutOpts : PutObjectOptions := { ContentType := "", UserMetadata := none }
            let minioPutOpts :=
              if uploadOpts.ContentType ≠ "" then
                { minioPutOpts with ContentType := uploadOpts.ContentType }
              else minioPutOpts
            let minioPutOpts :=
              if uploadOpts.UserMetadata ≠ none then
                { minioPutOpts with UserMetadata := uploadOpts.UserMetadata }
              else minioPutOpts
            match h.FPutObject c.bucketName objectName filePath minioPutOpts w1 with
            | (.error err, w2) =>
                let w3 := c.logger.Print [.str "Failed to upload file:", .err err] w2
                ((none, some (Errorf_w_v errors.ErrUploadFailed err)), w3)
            | (.ok info, w2) =>
                ((some { ETag := info.ETag, VersionID := info.VersionID, Size := info.Size,
                         LastModified := info.LastModified.Format }, none), w2)

def Client.UploadFromReader (c : Client) (objectName : String) (reader : List Nat) (size : Int)
    (opts : List models.UploadOptions) (w : World) :
    (Option models.UploadResult × Option GoError) × World :=
  match c.client with
  | none => ((none, some errors.ErrClientNotInitialized), w)
  | some h =>
      let uploadOpts : models.UploadOptions :=
        match opts with
        | o :: _ => o
        | [] => { ContentType := "", UserMetadata := none }
      let minioPutOpts : PutObjectOptions := { ContentType := "", UserMetadata := none }
      let minioPutOpts :=
        if uploadOpts.ContentType ≠ "" then
          { minioPutOpts with ContentType := uploadOpts.ContentType }
        else minioPutOpts
      let minioPutOpts :=
        if uploadOpts.UserMetadata ≠ none then
          { minioPutOpts with UserMetadata := uploadOpts.UserMetadata }
        else minioPutOpts
      match h.PutObject c.bucketName objectName reader size minioPutOpts w with
      | (.error err, w1) =>
          let w2 := c.logger.Print [.str "Failed to upload file:", .err err] w1
          ((none, some (Errorf_w_v errors.ErrUploadFailed err)), w2)
      | (.ok info, w1) =>
          ((some { ETag := info.ETag, VersionID := info.VersionID, Size := info.Size,
                   LastModified := w1.now.Format }, none), w1)

def Client.DownloadFile (c : Client) (objectName filePath : String)
    (opts : List models.DownloadOptions) (w : World) : Option GoError × World :=
  match c.client with
  | none => (some errors.ErrClientNotInitialized, w)
  | some h =>
      let dir := w.fs.dir filePath
      match osMkdirAll dir 0o755 w with
      | (some err, w1) =>
          let w2 := c.logger.Print [.str "Failed to create directory:", .err err] w1
          (some (Errorf_w "failed to create directory: " err), w2)
      | (none, w1) =>
          let downloadOpts : models.DownloadOptions :=
            match opts with
            | o :: _ => o
            | [] => { VersionID := "" }
          let minioGetOpts : GetObjectOptions := { VersionID := "" }
          let minioGetOpts :=
            if downloadOpts.VersionID ≠ "" then
              { minioGetOpts with VersionID := downloadOpts.VersionID }
            else minioGetOpts
          match h.FGetObject c.bucketName objectName filePath minioGetOpts w1 with
          | (some err, w2) =>
              let w3 := c.logger.Print [.str "Failed to download file:", .err err] w2
              (some (Errorf_w_v errors.ErrDownloadFailed err), w3)
          | (none, w2) => (none, w2)

def Client.DownloadToWriter (c : Client) (objectName : String) (writer : Writer)
    (opts : List models.DownloadOptions) (w : World) : (Option GoError × Writer) × World :=
  match c.client with
  | none => ((some errors.ErrClientNotInitialized, writer), w)
  | some h =>
      let downloadOpts : models.DownloadOptions :=
        match opts with
        | o :: _ => o
        | [] => { VersionID := "" }
      let minioGetOpts : GetObjectOptions := { VersionID := "" }
      let minioGetOpts :=
        if downloadOpts.VersionID ≠ "" then
          { minioGetOpts with VersionID := downloadOpts.VersionID }
        else minioGetOpts
      match h.GetObject c.bucketName objectName minioGetOpts w with
      | (.error err, w1) =>
          let w2 := c.logger.Print [.str "Failed to get object:", .err err] w1
          ((some (Errorf_w_v errors.ErrDownloadFailed err), writer), w2)
      | (.ok object, w1) =>
          -- `defer object.Close()` runs when the function returns, on either path below
          match ioCopy writer object with
          | (some err, writer1) =>
              let w2 := c.logger.Print [.str "Failed to copy object data:", .err err] w1
              ((some (Errorf_w "failed to copy object data: " err), writer1),
                objectClose c.bucketName objectName w2)
          | (none, writer1) => ((none, writer1), objectClose c.bucketName objectName w1)

def Client.DownloadToMemory (c : Client) (objectName : String) (_writer : Writer)
    (opts : List models.DownloadOptions) (w : World) :
    (Option (List Nat) × Option GoError) × World :=
  match c.client with
  | none => ((none, some errors.ErrClientNotInitialized), w)
  | some h =>
      let downloadOpts : models.DownloadOptions :=
        match opts with
        | o :: _ => o
        | [] => { VersionID := "" }
      let minioGetOpts : GetObjectOptions := { VersionID := "" }
      let minioGetOpts :=
        if downloadOpts.VersionID ≠ "" then
          { minioGetOpts with VersionID := downloadOpts.VersionID }
        else minioGetOpts
      match h.GetObject c.bucketName objectName minioGetOpts w with
      | (.error err, w1) =>
          let w2 := c.logger.Print [.str "Failed to get object:", .err err] w1
          ((none, some (Errorf_w_v errors.ErrDownloadFailed err)), w2)
      | (.ok object, w1) =>
          -- `defer object.Close()` runs when the function returns, on either path below
          match ioReadAll object with
          | (_, some err) =>
              let w2 := c.logger.Print [.str "Failed to read object data:", .err err] w1
              ((none, some (Errorf_w "failed to read object data: " err)),
                objectClose c.bucketName objectName w2)
          | (data, none) => ((some data, none), objectClose c.bucketName objectName w1)

def Client.ObjectExists (c : Client) (objectName : String) (w : World) :
    (Bool × Option GoError) × World :=
  match c.client with
  | none => ((false, some errors.ErrClientNotInitialized), w)
  | some h =>
      match h.StatObject c.bucketName objectName w with
      | (.error err, w1) =>
          let w2 := c.logger.Print [.str "Failed to stat object:", .err err] w1
          if ToErrorResponseCode err = "NoSuchKey" then ((false, none), w2)
          else ((false, some err), w2)
      | (.ok _, w1) => ((true, none), w1)

def Client.GetObjectInfo (c : Client) (objectName : String) (w : World) :
    (Option models.ObjectInfo × Option GoError) × World :=
  match c.client with
  | none => ((none, some errors.ErrClientNotInitialized), w)
  | some h =>
      match h.StatObject c.bucketName objectName w with
      | (.error err, w1) =>
          let w2 := c.logger.Print [.str "Failed to get object info:", .err err] w1
          ((none, some (Errorf_w "failed to get object info: " err)), w2)
      | (.ok info, w1) =>
          ((some { Key := objectName, Size := info.Size,
                   LastModified := info.LastModified.Format, ETag := info.ETag,
                   ContentType := info.ContentType, UserMetadata := info.UserMetadata }, none),
            w1)

def Client.DeleteObject (c : Client) (objectName : String) (w : World) :
    Option GoError × World :=
  match c.client with
  | none => (some errors.ErrClientNotInitialized, w)
  | some h =>
      match h.RemoveObject c.bucketName objectName w with
      | (some err, w1) =>
          let w2 := c.logger.Print [.str "Failed to delete object:", .err err] w1
          (some (Errorf_w "failed to delete object: " err), w2)
      | (none, w1) => (none, w1)

/-- The method `SetBucket`: the client after the call comes with the result. -/
def Client.SetBucket (c : Client) (bucketName : String) (w : World) :
    (Outcome (Option GoError) × Client) × World :=
  let c1 : Client := { c with bucketName := bucketName }
  match c1.EnsureBucketExists w with
  | (r, w1) => ((r, c1), w1)

def Client.GetClient (c : Client) : Option MinioClient := c.client

/-! ## Observations used by the statements -/

/-- The backend calls received between the world `w` and the later world `w1`. -/
def issued (w w1 : World) : List Call :=
  w1.backend.calls.drop w.backend.calls.length

/-- The `minio.GetObjectOptions` the three downloads build from their variadic
options (first element if any, `VersionID` copied when non-empty). -/
def getOptionsOf (opts : List models.DownloadOptions) : GetObjectOptions :=
  let downloadOpts : models.DownloadOptions :=
    match opts with
    | o :: _ => o
    | [] => { VersionID := "" }
  if downloadOpts.VersionID ≠ "" then { VersionID := downloadOpts.VersionID }
  else { VersionID := "" }

/-- The `minio.PutObjectOptions` the two uploads build from their variadic options
(first element if any; content type copied when non-empty, metadata when non-nil). -/
def putOptionsOf (opts : List models.UploadOptions) : PutObjectOptions :=
  let uploadOpts : models.UploadOptions :=
    match opts with
    | o :: _ => o
    | [] => { ContentType := "", UserMetadata := none }
  let minioPutOpts : PutObjectOptions := { ContentType := "", UserMetadata := none }
  let minioPutOpts :=
    if uploadOpts.ContentType ≠ "" then
      { minioPutOpts with ContentType := uploadOpts.ContentType }
    else minioPutOpts
  if uploadOpts.UserMetadata ≠ none then
    { minioPutOpts with UserMetadata := uploadOpts.UserMetadata }
  else minioPutOpts

/-- The translation of upload options in the words of the specification: with no
options the backend defaults; a non-empty content type and a non-nil metadata
mapping override the default, an empty or nil field leaves it. -/
def specPutOptions (opts : Option models.UploadOptions) : PutObjectOptions :=
  match opts with
  | none => { ContentType := "", UserMetadata := none }
  | some o =>
      { ContentType := if o.ContentType = "" then "" else o.ContentType
        UserMetadata :=
          match o.UserMetadata with
          | none => none
          | some m => some m }

/-! ## Sample data for the closed statements -/

namespace Sample

def handle : MinioClient :=
  { endpoint := "localhost:9000", accessKeyID := "minioadmin",
    secretAccessKey := "minioadmin123", secure := false }

def config : models.Config :=
  { Endpoint := "localhost:9000", AccessKeyID := "minioadmin",
    SecretAccessKey := "minioadmin123", UseSSL := false, BucketName := "my-bucket",
    Region := "" }

/-- A configuration with no endpoint. -/
def noEndpoint : models.Config := { config with Endpoint := "" }

/-- A client as `NewClient config` returns it. -/
def client : Client :=
  { client := some handle, config := some config, bucketName := "my-bucket",
    logger := .defaultLogger }

/-- The zero value `Client{}`, with a logger set. -/
def zeroClient : Client :=
  { client := none, config := none, bucketName := "", logger := .defaultLogger }

def info : UploadInfo :=
  { ETag := "etag", VersionID := "", Size := 3, LastModified := ⟨"2024-01-01T00:00:00Z"⟩ }

def objectInfo : MinioObjectInfo :=
  { Size := 3, LastModified := ⟨"2024-01-01T00:00:00Z"⟩, ETag := "etag",
    ContentType := "text/plain", UserMetadata := none }

def fs : FileSystem :=
  { stat := fun _ => none, mkdirAll := fun _ => none, dir := fun _ => ".", accesses := [] }

/-- A backend that holds `buckets` and fails the calls `fault` names. -/
def backend (buckets : List String) (fault : Call → Option GoError) : Backend :=
  { buckets := buckets, calls := [], fault := fault, uploadInfo := fun _ => info,
    objectInfo := fun _ => objectInfo, object := fun _ => { data := [1, 2, 3], readErr := none } }

def world (buckets : List String) (fault : Call → Option GoError) : World :=
  { backend := backend buckets fault, fs := fs, log := [], now := ⟨"2024-01-01T00:00:00Z"⟩ }

def accessDenied : GoError := .errorResponse "AccessDenied" "Access Denied."

/-- The backend refuses every put, get, stat and remove with `accessDenied`. -/
def denyObjects : Call → Option GoError
  | .FPutObject _ _ _ _ => some accessDenied
  | .PutObject _ _ _ _ _ => some accessDenied
  | .FGetObject _ _ _ _ => some accessDenied
  | .GetObject _ _ _ => some accessDenied
  | .StatObject _ _ => some accessDenied
  | .RemoveObject _ _ => some accessDenied
  | _ => none

/-- The error of a backend that cannot be reached. -/
def unreachable : GoError := .errorString "dial tcp 127.0.0.1:9000: connect: connection refused"

/-- The backend cannot be reached: every call fails. -/
def offline : Call → Option GoError := fun _ => some unreachable

/-- What `os.Stat` gives for a path under a directory that may not be searched. -/
def statDenied : GoError := .pathError "stat" "/root/secret.txt" (.errno 13)

/-- What `os.Stat` gives for a path that is not there. -/
def statMissing : GoError := .pathError "stat" "./missing.txt" (.errno 2)

/-- A filesystem where `/root/secret.txt` may not be looked at and `./missing.txt`
is not there. -/
def guardedFs : FileSystem :=
  { stat := fun name =>
      if name = "/root/secret.txt" then some statDenied
      else if name = "./missing.txt" then some statMissing
      else none
    mkdirAll := fun _ => none, dir := fun _ => ".", accesses := [] }

/-- A world with `guardedFs` whose backend, asked to put `/root/secret.txt`, fails on
opening the file. -/
def guardedWorld : World :=
  { backend := backend ["my-bucket"] fun call =>
      match call with
      | .FPutObject _ _ _ _ => some (.pathError "open" "/root/secret.txt" (.errno 13))
      | _ => none
    fs := guardedFs, log := [], now := ⟨"2024-01-01T00:00:00Z"⟩ }

/-- A sink whose `Write` answers with the package's own `ErrDownloadFailed`. -/
def relaySink : Writer := { written := [], fail := some (0, errors.ErrDownloadFailed) }

/-- A sink that is full after two bytes. -/
def fullSink : Writer := { written := [], fail := some (2, .errno 28) }

end Sample

/-! ## Lemmas on the collaborators -/

@[simp] theorem record_calls (w : World) (call : Call) :
    (w.record call).backend.calls = w.backend.calls ++ [call] := rfl

@[simp] theorem record_buckets (w : World) (call : Call) :
    (w.record call).backend.buckets = w.backend.buckets := rfl

@[simp] theorem record_fault (w : World) (call : Call) :
    (w.record call).backend.fault = w.backend.fault := rfl

@[simp] theorem record_fs (w : World) (call : Call) : (w.record call).fs = w.fs := rfl

@[simp] theorem record_log (w : World) (call : Call) : (w.record call).log = w.log := rfl

@[simp] theorem Print_backend (l : Logger) (v : List LogVal) (w : World) :
    (l.Print v w).backend = w.backend := rfl

@[simp] theorem Print_fs (l : Logger) (v : List LogVal) (w : World) :
    (l.Print v w).fs = w.fs := rfl

@[simp] theorem issued_self (w : World) : issued w w = [] := by
  simp [issued]

/-- `errors.Is(err, err)` holds. -/
theorem errorsIs_self (e : GoError) : errorsIs e e = true := by
  cases e <;> simp [errorsIs]

/-- An error made by `fmt.Errorf("...%w", e)` has `e` in its chain. -/
theorem errorsIs_wrap_cause (msg : String) (e : GoError) :
    errorsIs (.wrapError msg e) e = true := by
  simp [errorsIs, errorsIs_self]

/-- An error that wraps a sentinel `errors.New(text)` matches a target exactly when
the target is that wrapper or that sentinel. -/
theorem errorsIs_wrap_sentinel (msg text : String) (target : GoError) :
    errorsIs (.wrapError msg (.errorString text)) target
      = (decide (GoError.wrapError msg (.errorString text) = target)
          || decide (GoError.errorString text = target)) := by
  simp [errorsIs]

theorem BucketExists_snd (h : MinioClient) (bucketName : String) (w : World) :
    (h.BucketExists bucketName w).2 = w.record (.BucketExists bucketName) := by
  unfold MinioClient.BucketExists
  dsimp only
  split <;> rfl

/-- The existence query does not depend on the calls recorded so far. -/
theorem BucketExists_fst_record (h : MinioClient) (bucketName : String) (w : World)
    (call : Call) :
    (h.BucketExists bucketName (w.record call)).1 = (h.BucketExists bucketName w).1 := by
  unfold MinioClient.BucketExists
  simp only [record_fault, record_buckets]
  split <;> rfl

theorem MakeBucket_calls (h : MinioClient) (bucketName region : String) (w : World) :
    (h.MakeBucket bucketName region w).2.backend.calls
      = w.backend.calls ++ [.MakeBucket bucketName region] := by
  unfold MinioClient.MakeBucket
  dsimp only
  split
  · rfl
  · split <;> rfl

theorem FPutObject_snd (h : MinioClient) (bucketName objectName filePath : String)
    (opts : PutObjectOptions) (w : World) :
    (h.FPutObject bucketName objectName filePath opts w).2
      = w.record (.FPutObject bucketName objectName filePath opts) := by
  unfold MinioClient.FPutObject
  dsimp only
  split <;> rfl

theorem PutObject_snd (h : MinioClient) (bucketName objectName : String) (reader : List Nat)
    (size : Int) (opts : PutObjectOptions) (w : World) :
    (h.PutObject bucketName objectName reader size opts w).2
      = w.record (.PutObject bucketName objectName reader size opts) := by
  unfold MinioClient.PutObject
  dsimp only
  split <;> rfl

theorem GetObject_snd (h : MinioClient) (bucketName objectName : String)
    (opts : GetObjectOptions) (w : World) :
    (h.GetObject bucketName objectName opts w).2
      = w.record (.GetObject bucketName objectName opts) := by
  unfold MinioClient.GetObject
  dsimp only
  split <;> rfl

theorem StatObject_snd (h : MinioClient) (bucketName objectName : String) (w : World) :
    (h.StatObject bucketName objectName w).2 = w.record (.StatObject bucketName objectName) := by
  unfold MinioClient.StatObject
  dsimp only
  split <;> rfl

theorem FGetObject_eq (h : MinioClient) (bucketName objectName filePath : String)
    (opts : GetObjectOptions) (w : World) :
    h.FGetObject bucketName objectName filePath opts w
      = (w.backend.fault (.FGetObject bucketName objectName filePath opts),
          w.record (.FGetObject bucketName objectName filePath opts)) := rfl

theorem RemoveObject_eq (h : MinioClient) (bucketName objectName : String) (w : World) :
    h.RemoveObject bucketName objectName w
      = (w.backend.fault (.RemoveObject bucketName objectName),
          w.record (.RemoveObject bucketName objectName)) := rfl

theorem errorsIs_Errorf_w (text : String) (e : GoError) :
    errorsIs (Errorf_w text e) e = true :=
  errorsIs_wrap_cause _ e

/-- The unfolding of `UploadFile` for a live handle. -/
theorem UploadFile_live (c : Client) (h : MinioClient) (objectName filePath : String)
    (opts : List models.UploadOptions) (w : World) (hc : c.client = some h) :
    c.UploadFile objectName filePath opts w
      = if IsNotExist (w.fs.stat filePath) then
          ((none, some (Errorf_s "file not found: " filePath)),
            c.logger.Print [.str "File not found:", .str filePath] (osStat filePath w).2)
        else
          match h.FPutObject c.bucketName objectName filePath (putOptionsOf opts)
              (osStat filePath w).2 with
          | (.error err, w2) =>
              ((none, some (Errorf_w_v errors.ErrUploadFailed err)),
                c.logger.Print [.str "Failed to upload file:", .err err] w2)
          | (.ok info, w2) =>
              ((some { ETag := info.ETag, VersionID := info.VersionID, Size := info.Size,
                       LastModified := info.LastModified.Format }, none), w2) := by
  unfold Client.UploadFile
  rw [hc]
  rfl

/-- The unfolding of `UploadFromReader` for a live handle. -/
theorem UploadFromReader_live (c : Client) (h : MinioClient) (objectName : String)
    (reader : List Nat) (size : Int) (opts : List models.UploadOptions) (w : World)
    (hc : c.client = some h) :
    c.UploadFromReader objectName reader size opts w
      = match h.PutObject c.bucketName objectName reader size (putOptionsOf opts) w with
        | (.error err, w1) =>
            ((none, some (Errorf_w_v errors.ErrUploadFailed err)),
              c.logger.Print [.str "Failed to upload file:", .err err] w1)
        | (.ok info, w1) =>
            ((some { ETag := info.ETag, VersionID := info.VersionID, Size := info.Size,
                     LastModified := w1.now.Format }, none), w1) := by
  unfold Client.UploadFromReader
  rw [hc]
  rfl

/-- The unfolding of `DownloadFile` for a live handle. -/
theorem DownloadFile_live (c : Client) (h : MinioClient) (objectName filePath : String)
    (opts : List models.DownloadOptions) (w : World) (hc : c.client = some h) :
    c.DownloadFile objectName filePath opts w
      = match osMkdirAll (w.fs.dir filePath) 0o755 w with
        | (some err, w1) =>
            (some (Errorf_w "failed to create directory: " err),
              c.logger.Print [.str "Failed to create directory:", .err err] w1)
        | (none, w1) =>
            match h.FGetObject c.bucketName objectName filePath (getOptionsOf opts) w1 with
            | (some err, w2) =>
                (some (Errorf_w_v errors.ErrDownloadFailed err),
                  c.logger.Print [.str "Failed to download file:", .err err] w2)
            | (none, w2) => (none, w2) := by
  unfold Client.DownloadFile
  rw [hc]
  rfl

/-- The unfolding of `DownloadToWriter` for a live handle. -/
theorem DownloadToWriter_live (c : Client) (h : MinioClient) (objectName : String)
    (writer : Writer) (opts : List models.DownloadOptions) (w : World)
    (hc : c.client = some h) :
    c.DownloadToWriter objectName writer opts w
      = match h.GetObject c.bucketName objectName (getOptionsOf opts) w with
        | (.error err, w1) =>
            ((some (Errorf_w_v errors.ErrDownloadFailed err), writer),
              c.logger.Print [.str "Failed to get object:", .err err] w1)
        | (.ok object, w1) =>
            match ioCopy writer object with
            | (some err, writer1) =>
                ((some (Errorf_w "failed to copy object data: " err), writer1),
                  objectClose c.bucketName objectName
                    (c.logger.Print [.str "Failed to copy object data:", .err err] w1))
            | (none, writer1) => ((none, writer1), objectClose c.bucketName objectName w1) := by
  unfold Client.DownloadToWriter
  rw [hc]
  rfl

/-- The unfolding of `DownloadToMemory` for a live handle. -/
theorem DownloadToMemory_live (c : Client) (h : MinioClient) (objectName : String)
    (writer : Writer) (opts : List models.DownloadOptions) (w : World)
    (hc : c.client = some h) :
    c.DownloadToMemory objectName writer opts w
      = match h.GetObject c.bucketName objectName (getOptionsOf opts) w with
        | (.error err, w1) =>
            ((none, some (Errorf_w_v errors.ErrDownloadFailed err)),
              c.logger.Print [.str "Failed to get object:", .err err] w1)
        | (.ok object, w1) =>
            match ioReadAll object with
            | (_, some err) =>
                ((none, some (Errorf_w "failed to read object data: " err)),
                  objectClose c.bucketName objectName
                    (c.logger.Print [.str "Failed to read object data:", .err err] w1))
            | (data, none) => ((some data, none), objectClose c.bucketName objectName w1) := by
  unfold Client.DownloadToMemory
  rw [hc]
  rfl

/-! ## C1 -/

/-- C1: for every configuration whose endpoint, access key or secret key is empty,
`NewClient` returns no client and exactly `ErrInvalidConfig`, and the backend has
received no call: its trace, its buckets and the filesystem are as before, whatever
`UseSSL`, `BucketName` and `Region` are. -/
theorem NewClient_invalid_config (config : models.Config) (w : World)
    (h : config.Endpoint = "" ∨ config.AccessKeyID = "" ∨ config.SecretAccessKey = "") :
    (NewClient (some config) w).1 = .ret (none, some errors.ErrInvalidConfig) ∧
    issued w (NewClient (some config) w).2 = [] ∧
    (NewClient (some config) w).2.backend = w.backend ∧
    (NewClient (some config) w).2.fs = w.fs := by
  simp [NewClient, h, issued]

/-- The configuration with no endpoint: `NewClient` returns `ErrInvalidConfig` and the
backend trace stays empty. -/
theorem NewClient_invalid_config_witness :
    (Sample.noEndpoint.Endpoint = "" ∨ Sample.noEndpoint.AccessKeyID = "" ∨
        Sample.noEndpoint.SecretAccessKey = "") ∧
    (NewClient (some Sample.noEndpoint) (Sample.world [] fun _ => none)).1
        = .ret (none, some errors.ErrInvalidConfig) ∧
    (NewClient (some Sample.noEndpoint) (Sample.world [] fun _ => none)).2.backend.calls = [] :=
  ⟨Or.inl rfl,
    (NewClient_invalid_config Sample.noEndpoint (Sample.world [] fun _ => none) (Or.inl rfl)).1,
    by
      rw [(NewClient_invalid_config Sample.noEndpoint (Sample.world [] fun _ => none)
        (Or.inl rfl)).2.2.1]
      rfl⟩

/-- A client `NewClient` returns has a live handle and the configuration it was
built from, with the configured bucket as its current bucket and the default
logger. -/
theorem NewClient_client_ready (config : Option models.Config) (w : World) (c : Client)
    (e : Option GoError) (hret : (NewClient config w).1 = .ret (some c, e)) :
    ∃ h cfg, config = some cfg ∧ c.client = some h ∧ c.config = some cfg ∧
      c.bucketName = cfg.BucketName ∧ c.logger = .defaultLogger ∧ e = none := by
  unfold NewClient at hret
  dsimp only at hret
  cases config with
  | none => simp at hret
  | some cfg =>
      dsimp only at hret
      split at hret
      · simp at hret
      · split at hret
        · simp at hret
        · split at hret
          · split at hret
            · simp at hret
            · simp only [Outcome.ret.injEq, Prod.mk.injEq, Option.some.injEq] at hret
              obtain ⟨hc, he⟩ := hret
              subst hc he
              exact ⟨_, cfg, rfl, rfl, rfl, rfl, rfl, rfl⟩
            · simp at hret
          · simp only [Outcome.ret.injEq, Prod.mk.injEq, Option.some.injEq] at hret
            obtain ⟨hc, he⟩ := hret
            subst hc he
            exact ⟨_, cfg, rfl, rfl, rfl, rfl, rfl, rfl⟩

/-! ## C2 -/

/-- When the existence query reports the bucket, `EnsureBucketExists` succeeds with
that one query and the world is the one the query leaves. -/
theorem EnsureBucketExists_of_exists (c : Client) (h : MinioClient) (w : World)
    (hc : c.client = some h) (hex : (h.BucketExists c.bucketName w).1 = .ok true) :
    c.EnsureBucketExists w = (.ret none, w.record (.BucketExists c.bucketName)) := by
  have hs := BucketExists_snd h c.bucketName w
  unfold Client.EnsureBucketExists
  rw [hc]
  dsimp only
  rcases hq : h.BucketExists c.bucketName w with ⟨r, w1⟩
  rw [hq] at hex hs
  simp only at hex hs
  subst hex hs
  rfl

/-- C2: for a client with a live handle whose current bucket exists in the backend
(the backend reports it), two calls of `EnsureBucketExists` in succession both
return success, each issues exactly one bucket-exists query and no create-bucket
call, and the backend's set of buckets is unchanged. -/
theorem EnsureBucketExists_idempotent (c : Client) (h : MinioClient) (w : World)
    (hc : c.client = some h) (hex : (h.BucketExists c.bucketName w).1 = .ok true) :
    (c.EnsureBucketExists w).1 = .ret none ∧
    (c.EnsureBucketExists (c.EnsureBucketExists w).2).1 = .ret none ∧
    issued w (c.EnsureBucketExists w).2 = [.BucketExists c.bucketName] ∧
    issued (c.EnsureBucketExists w).2 (c.EnsureBucketExists (c.EnsureBucketExists w).2).2
      = [.BucketExists c.bucketName] ∧
    (c.EnsureBucketExists w).2.backend.buckets = w.backend.buckets ∧
    (c.EnsureBucketExists (c.EnsureBucketExists w).2).2.backend.buckets = w.backend.buckets := by
  have h1 := EnsureBucketExists_of_exists c h w hc hex
  have hex2 : (h.BucketExists c.bucketName (w.record (.BucketExists c.bucketName))).1
      = .ok true := by
    rw [BucketExists_fst_record]; exact hex
  have h2 := EnsureBucketExists_of_exists c h (w.record (.BucketExists c.bucketName)) hc hex2
  rw [h1]
  simp only [h2]
  simp [issued]

/-- The sample client against a backend that holds `my-bucket`: two calls, two
successes, the bucket set as before. -/
theorem EnsureBucketExists_idempotent_witness :
    (Sample.handle.BucketExists Sample.client.bucketName
      (Sample.world ["my-bucket"] fun _ => none)).1 = .ok true ∧
    (Sample.client.EnsureBucketExists (Sample.world ["my-bucket"] fun _ => none)).1 = .ret none ∧
    (Sample.client.EnsureBucketExists
      (Sample.client.EnsureBucketExists (Sample.world ["my-bucket"] fun _ => none)).2).1
        = .ret none ∧
    (Sample.client.EnsureBucketExists
      (Sample.client.EnsureBucketExists
        (Sample.world ["my-bucket"] fun _ => none)).2).2.backend.buckets = ["my-bucket"] :=
  have t := EnsureBucketExists_idempotent Sample.client Sample.handle
    (Sample.world ["my-bucket"] fun _ => none) rfl (by rfl)
  ⟨by rfl, t.1, t.2.1, t.2.2.2.2.2⟩

/-! ## C3 -/

/-- C3: for a client with a live handle (and its configuration), `EnsureBucketExists`
issues a create-bucket call exactly when the existence query succeeds and reports the
bucket absent.  In that case the calls are the query and one `MakeBucket` for the
current bucket with the configured region, `"us-east-1"` when that is empty, and the
result is an error exactly when the create call fails (the error then wraps the
cause).  When the existence query fails, an error is returned and the query is the
only call. -/
theorem EnsureBucketExists_create (c : Client) (h : MinioClient) (config : models.Config)
    (w : World) (hc : c.client = some h) (hcfg : c.config = some config) :
    ((∃ b r, Call.MakeBucket b r ∈ issued w (c.EnsureBucketExists w).2)
      ↔ (h.BucketExists c.bucketName w).1 = .ok false) ∧
    ((h.BucketExists c.bucketName w).1 = .ok false →
      issued w (c.EnsureBucketExists w).2
        = [.BucketExists c.bucketName,
           .MakeBucket c.bucketName (if config.Region = "" then "us-east-1" else config.Region)] ∧
      (c.EnsureBucketExists w).1
        = .ret ((h.MakeBucket c.bucketName
              (if config.Region = "" then "us-east-1" else config.Region)
              (h.BucketExists c.bucketName w).2).1.map
            fun e => Errorf_w "failed to create bucket: " e) ∧
      ((∃ e, (c.EnsureBucketExists w).1 = .ret (some e))
        ↔ (h.MakeBucket c.bucketName
              (if config.Region = "" then "us-east-1" else config.Region)
              (h.BucketExists c.bucketName w).2).1 ≠ none)) ∧
    (∀ e, (h.BucketExists c.bucketName w).1 = .error e →
      (c.EnsureBucketExists w).1
        = .ret (some (Errorf_w "failed to check bucket existence: " e)) ∧
      issued w (c.EnsureBucketExists w).2 = [.BucketExists c.bucketName]) ∧
    ((h.BucketExists c.bucketName w).1 = .ok true →
      (c.EnsureBucketExists w).1 = .ret none ∧
      issued w (c.EnsureBucketExists w).2 = [.BucketExists c.bucketName]) := by
  have hs := BucketExists_snd h c.bucketName w
  unfold Client.EnsureBucketExists
  rw [hc]
  dsimp only
  rcases hq : h.BucketExists c.bucketName w with ⟨r, w1⟩
  rw [hq] at hs
  simp only at hs
  subst hs
  cases r with
  | error e => simp [issued, Logger.Print]
  | ok b =>
      cases b with
      | true => simp [issued]
      | false =>
          have hm := MakeBucket_calls h c.bucketName
            (if config.Region = "" then "us-east-1" else config.Region)
            (w.record (.BucketExists c.bucketName))
          simp only [hcfg]
          rcases hq2 : h.MakeBucket c.bucketName
              (if config.Region = "" then "us-east-1" else config.Region)
              (w.record (.BucketExists c.bucketName)) with ⟨r2, w2⟩
          rw [hq2] at hm
          simp only [record_calls] at hm
          cases r2 with
          | some e => simp [issued, Logger.Print, hm]
          | none => simp [issued, hm]

/-- The sample client (empty region) against a backend with no bucket: one query, one
create in `us-east-1`, success. -/
theorem EnsureBucketExists_create_witness :
    Sample.client.client = some Sample.handle ∧
    Sample.client.config = some Sample.config ∧
    issued (Sample.world [] fun _ => none)
        (Sample.client.EnsureBucketExists (Sample.world [] fun _ => none)).2
      = [.BucketExists "my-bucket", .MakeBucket "my-bucket" "us-east-1"] ∧
    (Sample.client.EnsureBucketExists (Sample.world [] fun _ => none)).1 = .ret none :=
  have t := (EnsureBucketExists_create Sample.client Sample.handle Sample.config
    (Sample.world [] fun _ => none) rfl rfl).2.1 (by rfl)
  ⟨rfl, rfl, t.1, t.2.1⟩

/-! ## C4 -/

/-- C4: for a client with a live handle and every object name, `ObjectExists` returns
`(true, nil)` when the backend stat succeeds, `(false, nil)` when the stat fails with
an error whose response code is `"NoSuchKey"`, and `(false, e)` with the backend's
own error `e`, not wrapped, for every other stat error. -/
theorem ObjectExists_cases (c : Client) (h : MinioClient) (objectName : String) (w : World)
    (hc : c.client = some h) :
    (∀ info, (h.StatObject c.bucketName objectName w).1 = .ok info →
      (c.ObjectExists objectName w).1 = (true, none)) ∧
    (∀ e, (h.StatObject c.bucketName objectName w).1 = .error e →
      ToErrorResponseCode e = "NoSuchKey" →
      (c.ObjectExists objectName w).1 = (false, none)) ∧
    (∀ e, (h.StatObject c.bucketName objectName w).1 = .error e →
      ToErrorResponseCode e ≠ "NoSuchKey" →
      (c.ObjectExists objectName w).1 = (false, some e)) := by
  unfold Client.ObjectExists
  rw [hc]
  dsimp only
  rcases hq : h.StatObject c.bucketName objectName w with ⟨r, w1⟩
  cases r with
  | ok info => simp
  | error e =>
      refine ⟨by simp, ?_, ?_⟩
      · intro e1 he hcode
        simp only [Except.error.injEq] at he
        subst he
        simp [hcode]
      · intro e1 he hcode
        simp only [Except.error.injEq] at he
        subst he
        simp [hcode]

/-- A stat refused with `AccessDenied` comes back from `ObjectExists` as it is. -/
theorem ObjectExists_cases_witness :
    Sample.client.client = some Sample.handle ∧
    (Sample.client.ObjectExists "test-file.txt"
      (Sample.world ["my-bucket"] fun call =>
        match call with
        | .StatObject _ _ => some Sample.accessDenied
        | _ => none)).1 = (false, some Sample.accessDenied) :=
  ⟨rfl,
    (ObjectExists_cases Sample.client Sample.handle "test-file.txt"
      (Sample.world ["my-bucket"] fun call =>
        match call with
        | .StatObject _ _ => some Sample.accessDenied
        | _ => none) rfl).2.2 Sample.accessDenied (by rfl) (by decide)⟩

/-! ## C5 -/

/-- C5 fails as stated: the backend refuses the put of `UploadFile` with the error
`accessDenied`; the error `UploadFile` returns wraps `ErrUploadFailed` and has the
text of `accessDenied` in its message, but `accessDenied` is not in its chain. -/
theorem UploadFile_cause_not_in_chain :
    (Sample.handle.FPutObject "my-bucket" "test-file.txt" "./example.txt" (putOptionsOf [])
        (osStat "./example.txt" (Sample.world ["my-bucket"] Sample.denyObjects)).2).1
      = .error Sample.accessDenied ∧
    (Sample.client.UploadFile "test-file.txt" "./example.txt" []
        (Sample.world ["my-bucket"] Sample.denyObjects)).1
      = (none, some (.wrapError "file upload failed: Access Denied." errors.ErrUploadFailed)) ∧
    errorsIs (.wrapError "file upload failed: Access Denied." errors.ErrUploadFailed)
        Sample.accessDenied = false ∧
    errorsIs (.wrapError "file upload failed: Access Denied." errors.ErrUploadFailed)
        errors.ErrUploadFailed = true := by
  refine ⟨by rfl, by rfl, by decide, by decide⟩

/-- C5, amended: for a client with a live handle and a backend error `e`,
* `EnsureBucketExists` (query or create failed), `GetObjectInfo`, `DeleteObject` and
  the copy or read failure of a streamed download return an error whose chain has `e`;
* `UploadFile`, `UploadFromReader`, `DownloadFile` and the open failure of
  `DownloadToWriter` and `DownloadToMemory` return `fmt.Errorf("%w: %v", kind, e)` with
  `kind` the sentinel `ErrUploadFailed` or `ErrDownloadFailed`: the chain has the
  sentinel, the message has the text of `e`, and `e` is in the chain only when it is
  the sentinel or the returned error itself. -/
theorem backend_cause_chaining (c : Client) (h : MinioClient) (w : World)
    (hc : c.client = some h) :
    (∀ e, (h.BucketExists c.bucketName w).1 = .error e →
      ∃ r, (c.EnsureBucketExists w).1 = .ret (some r) ∧ errorsIs r e = true) ∧
    (∀ config e, c.config = some config →
      (h.BucketExists c.bucketName w).1 = .ok false →
      (h.MakeBucket c.bucketName (if config.Region = "" then "us-east-1" else config.Region)
        (h.BucketExists c.bucketName w).2).1 = some e →
      ∃ r, (c.EnsureBucketExists w).1 = .ret (some r) ∧ errorsIs r e = true) ∧
    (∀ objectName e, (h.StatObject c.bucketName objectName w).1 = .error e →
      ∃ r, (c.GetObjectInfo objectName w).1 = (none, some r) ∧ errorsIs r e = true) ∧
    (∀ objectName e, (h.RemoveObject c.bucketName objectName w).1 = some e →
      ∃ r, (c.DeleteObject objectName w).1 = some r ∧ errorsIs r e = true) ∧
    (∀ objectName writer opts object e,
      (h.GetObject c.bucketName objectName (getOptionsOf opts) w).1 = .ok object →
      (ioCopy writer object).1 = some e →
      ∃ r, (c.DownloadToWriter objectName writer opts w).1.1 = some r ∧ errorsIs r e = true) ∧
    (∀ objectName writer opts object e,
      (h.GetObject c.bucketName objectName (getOptionsOf opts) w).1 = .ok object →
      (ioReadAll object).2 = some e →
      ∃ r, (c.DownloadToMemory objectName writer opts w).1 = (none, some r) ∧
        errorsIs r e = true) ∧
    (∀ objectName filePath opts e, IsNotExist (w.fs.stat filePath) = false →
      (h.FPutObject c.bucketName objectName filePath (putOptionsOf opts)
        (osStat filePath w).2).1 = .error e →
      (c.UploadFile objectName filePath opts w).1
        = (none, some (Errorf_w_v errors.ErrUploadFailed e))) ∧
    (∀ objectName reader size opts e,
      (h.PutObject c.bucketName objectName reader size (putOptionsOf opts) w).1 = .error e →
      (c.UploadFromReader objectName reader size opts w).1
        = (none, some (Errorf_w_v errors.ErrUploadFailed e))) ∧
    (∀ objectName filePath opts e, (osMkdirAll (w.fs.dir filePath) 0o755 w).1 = none →
      (h.FGetObject c.bucketName objectName filePath (getOptionsOf opts)
        (osMkdirAll (w.fs.dir filePath) 0o755 w).2).1 = some e →
      (c.DownloadFile objectName filePath opts w).1
        = some (Errorf_w_v errors.ErrDownloadFailed e)) ∧
    (∀ objectName writer opts e,
      (h.GetObject c.bucketName objectName (getOptionsOf opts) w).1 = .error e →
      (c.DownloadToWriter objectName writer opts w).1.1
          = some (Errorf_w_v errors.ErrDownloadFailed e) ∧
      (c.DownloadToMemory objectName writer opts w).1
          = (none, some (Errorf_w_v errors.ErrDownloadFailed e))) ∧
    (∀ e,
      (Errorf_w_v errors.ErrUploadFailed e).Error = "file upload failed: " ++ e.Error ∧
      (Errorf_w_v errors.ErrDownloadFailed e).Error = "file download failed: " ++ e.Error ∧
      (Errorf_w_v errors.ErrUploadFailed e).Unwrap = some errors.ErrUploadFailed ∧
      (Errorf_w_v errors.ErrDownloadFailed e).Unwrap = some errors.ErrDownloadFailed ∧
      errorsIs (Errorf_w_v errors.ErrUploadFailed e) errors.ErrUploadFailed = true ∧
      errorsIs (Errorf_w_v errors.ErrDownloadFailed e) errors.ErrDownloadFailed = true ∧
      (errorsIs (Errorf_w_v errors.ErrUploadFailed e) e = true
        ↔ e = errors.ErrUploadFailed ∨ e = Errorf_w_v errors.ErrUploadFailed e) ∧
      (errorsIs (Errorf_w_v errors.ErrDownloadFailed e) e = true
        ↔ e = errors.ErrDownloadFailed ∨ e = Errorf_w_v errors.ErrDownloadFailed e)) := by
  refine ⟨?_, ?_, ?_, ?_, ?_, ?_, ?_, ?_, ?_, ?_, ?_⟩
  · intro e he
    refine ⟨Errorf_w "failed to check bucket existence: " e, ?_, errorsIs_Errorf_w _ e⟩
    unfold Client.EnsureBucketExists
    rw [hc]
    dsimp only
    rcases hq : h.BucketExists c.bucketName w with ⟨r, w1⟩
    rw [hq] at he
    simp only at he
    subst he
    rfl
  · intro config e hcfg hex hmk
    refine ⟨Errorf_w "failed to create bucket: " e, ?_, errorsIs_Errorf_w _ e⟩
    unfold Client.EnsureBucketExists
    rw [hc]
    dsimp only
    rcases hq : h.BucketExists c.bucketName w with ⟨r, w1⟩
    rw [hq] at hex hmk
    simp only at hex hmk
    subst hex
    simp only [hcfg]
    rcases hq2 : h.MakeBucket c.bucketName
        (if config.Region = "" then "us-east-1" else config.Region) w1 with ⟨r2, w2⟩
    rw [hq2] at hmk
    simp only at hmk
    subst hmk
    rfl
  · intro objectName e he
    refine ⟨Errorf_w "failed to get object info: " e, ?_, errorsIs_Errorf_w _ e⟩
    unfold Client.GetObjectInfo
    rw [hc]
    dsimp only
    rcases hq : h.StatObject c.bucketName objectName w with ⟨r, w1⟩
    rw [hq] at he
    simp only at he
    subst he
    rfl
  · intro objectName e he
    refine ⟨Errorf_w "failed to delete object: " e, ?_, errorsIs_Errorf_w _ e⟩
    unfold Client.DeleteObject
    rw [hc]
    dsimp only
    rcases hq : h.RemoveObject c.bucketName objectName w with ⟨r, w1⟩
    rw [hq] at he
    simp only at he
    subst he
    rfl
  · intro objectName writer opts object e hget hcopy
    refine ⟨Errorf_w "failed to copy object data: " e, ?_, errorsIs_Errorf_w _ e⟩
    rw [DownloadToWriter_live c h objectName writer opts w hc]
    rcases hq : h.GetObject c.bucketName objectName (getOptionsOf opts) w with ⟨r, w1⟩
    rw [hq] at hget
    simp only at hget
    subst hget
    dsimp only
    rcases hq2 : ioCopy writer object with ⟨r2, writer1⟩
    rw [hq2] at hcopy
    simp only at hcopy
    subst hcopy
    rfl
  · intro objectName writer opts object e hget hread
    refine ⟨Errorf_w "failed to read object data: " e, ?_, errorsIs_Errorf_w _ e⟩
    rw [DownloadToMemory_live c h objectName writer opts w hc]
    rcases hq : h.GetObject c.bucketName objectName (getOptionsOf opts) w with ⟨r, w1⟩
    rw [hq] at hget
    simp only at hget
    subst hget
    dsimp only
    rcases hq2 : ioReadAll object with ⟨data, r2⟩
    rw [hq2] at hread
    simp only at hread
    subst hread
    rfl
  · intro objectName filePath opts e hstat hput
    rw [UploadFile_live c h objectName filePath opts w hc, hstat]
    rcases hq : h.FPutObject c.bucketName objectName filePath (putOptionsOf opts)
        (osStat filePath w).2 with ⟨r, w1⟩
    rw [hq] at hput
    simp only at hput
    subst hput
    rfl
  · intro objectName reader size opts e hput
    rw [UploadFromReader_live c h objectName reader size opts w hc]
    rcases hq : h.PutObject c.bucketName objectName reader size (putOptionsOf opts) w
      with ⟨r, w1⟩
    rw [hq] at hput
    simp only at hput
    subst hput
    rfl
  · intro objectName filePath opts e hmk hget
    rw [DownloadFile_live c h objectName filePath opts w hc]
    rcases hq : osMkdirAll (w.fs.dir filePath) 0o755 w with ⟨r, w1⟩
    rw [hq] at hmk hget
    simp only at hmk hget
    subst hmk
    dsimp only
    rcases hq2 : h.FGetObject c.bucketName objectName filePath (getOptionsOf opts) w1
      with ⟨r2, w2⟩
    rw [hq2] at hget
    simp only at hget
    subst hget
    rfl
  · intro objectName writer opts e hget
    rw [DownloadToWriter_live c h objectName writer opts w hc,
      DownloadToMemory_live c h objectName writer opts w hc]
    rcases hq : h.GetObject c.bucketName objectName (getOptionsOf opts) w with ⟨r, w1⟩
    rw [hq] at hget
    simp only at hget
    subst hget
    exact ⟨rfl, rfl⟩
  · intro e
    refine ⟨rfl, rfl, rfl, rfl, ?_, ?_, ?_, ?_⟩
    · simp [Errorf_w_v, errors.ErrUploadFailed, errorsIs]
    · simp [Errorf_w_v, errors.ErrDownloadFailed, errorsIs]
    · simp only [Errorf_w_v, errors.ErrUploadFailed, errorsIs_wrap_sentinel,
        Bool.or_eq_true, decide_eq_true_eq]
      constructor
      · rintro (h1 | h1)
        · exact Or.inr h1.symm
        · exact Or.inl h1.symm
      · rintro (h1 | h1)
        · exact Or.inr h1.symm
        · exact Or.inl h1.symm
    · simp only [Errorf_w_v, errors.ErrDownloadFailed, errorsIs_wrap_sentinel,
        Bool.or_eq_true, decide_eq_true_eq]
      constructor
      · rintro (h1 | h1)
        · exact Or.inr h1.symm
        · exact Or.inl h1.symm
      · rintro (h1 | h1)
        · exact Or.inr h1.symm
        · exact Or.inl h1.symm

/-- A refused remove is wrapped with its cause in the chain; a refused put is wrapped as
`ErrUploadFailed`. -/
theorem backend_cause_chaining_witness :
    Sample.client.client = some Sample.handle ∧
    (Sample.client.DeleteObject "test-file.txt"
        (Sample.world ["my-bucket"] Sample.denyObjects)).1
      = some (.wrapError "failed to delete object: Access Denied." Sample.accessDenied) ∧
    (Sample.client.UploadFromReader "test-file.txt" [1, 2, 3] 3 []
        (Sample.world ["my-bucket"] Sample.denyObjects)).1
      = (none, some (Errorf_w_v errors.ErrUploadFailed Sample.accessDenied)) :=
  have t := backend_cause_chaining Sample.client Sample.handle
    (Sample.world ["my-bucket"] Sample.denyObjects) rfl
  ⟨rfl, by rfl, t.2.2.2.2.2.2.2.1 "test-file.txt" [1, 2, 3] 3 [] Sample.accessDenied (by rfl)⟩

/-! ## C6 -/

/-- C6: for a client whose backend handle is nil and for every argument list, each of
the nine operations returns exactly `ErrClientNotInitialized` with a zero result and
leaves the world as it was: no backend call, no filesystem access, no log line, and
the sink of `DownloadToWriter` is handed back untouched. -/
theorem nil_handle_first (c : Client) (w : World) (hc : c.client = none) :
    c.EnsureBucketExists w = (.ret (some errors.ErrClientNotInitialized), w) ∧
    (∀ objectName filePath opts,
      c.UploadFile objectName filePath opts w
        = ((none, some errors.ErrClientNotInitialized), w)) ∧
    (∀ objectName reader size opts,
      c.UploadFromReader objectName reader size opts w
        = ((none, some errors.ErrClientNotInitialized), w)) ∧
    (∀ objectName filePath opts,
      c.DownloadFile objectName filePath opts w = (some errors.ErrClientNotInitialized, w)) ∧
    (∀ objectName writer opts,
      c.DownloadToWriter objectName writer opts w
        = ((some errors.ErrClientNotInitialized, writer), w)) ∧
    (∀ objectName writer opts,
      c.DownloadToMemory objectName writer opts w
        = ((none, some errors.ErrClientNotInitialized), w)) ∧
    (∀ objectName,
      c.ObjectExists objectName w = ((false, some errors.ErrClientNotInitialized), w)) ∧
    (∀ objectName,
      c.GetObjectInfo objectName w = ((none, some errors.ErrClientNotInitialized), w)) ∧
    (∀ objectName, c.DeleteObject objectName w = (some errors.ErrClientNotInitialized, w)) := by
  refine ⟨?_, ?_, ?_, ?_, ?_, ?_, ?_, ?_, ?_⟩
  · unfold Client.EnsureBucketExists; rw [hc]
  · intros; unfold Client.UploadFile; rw [hc]
  · intros; unfold Client.UploadFromReader; rw [hc]
  · intros; unfold Client.DownloadFile; rw [hc]
  · intros; unfold Client.DownloadToWriter; rw [hc]
  · intros; unfold Client.DownloadToMemory; rw [hc]
  · intros; unfold Client.ObjectExists; rw [hc]
  · intros; unfold Client.GetObjectInfo; rw [hc]
  · intros; unfold Client.DeleteObject; rw [hc]

/-- The zero client: `UploadFile` returns `ErrClientNotInitialized` and leaves the world. -/
theorem nil_handle_first_witness :
    Sample.zeroClient.client = none ∧
    Sample.zeroClient.UploadFile "test-file.txt" "./example.txt" []
        (Sample.world [] fun _ => none)
      = ((none, some errors.ErrClientNotInitialized), Sample.world [] fun _ => none) :=
  ⟨rfl,
    (nil_handle_first Sample.zeroClient (Sample.world [] fun _ => none) rfl).2.1
      "test-file.txt" "./example.txt" []⟩

/-! ## C7 -/

/-- C7 fails as stated: the local stat of `/root/secret.txt` fails with "permission
denied", which is not a not-exist error; `UploadFile` goes on, the put call reaches
the backend, and the error returned is the backend's failure wrapped as
`ErrUploadFailed`, not the file-not-found error. -/
theorem UploadFile_unreadable_source_delegates :
    Sample.guardedWorld.fs.stat "/root/secret.txt" = some Sample.statDenied ∧
    issued Sample.guardedWorld
        (Sample.client.UploadFile "test-file.txt" "/root/secret.txt" [] Sample.guardedWorld).2
      = [.FPutObject "my-bucket" "test-file.txt" "/root/secret.txt"
          { ContentType := "", UserMetadata := none }] ∧
    (Sample.client.UploadFile "test-file.txt" "/root/secret.txt" [] Sample.guardedWorld).1
      = (none, some (.wrapError "file upload failed: open /root/secret.txt: permission denied"
          errors.ErrUploadFailed)) ∧
    (Sample.client.UploadFile "test-file.txt" "/root/secret.txt" [] Sample.guardedWorld).1
      ≠ (none, some (Errorf_s "file not found: " "/root/secret.txt")) := by
  refine ⟨by rfl, by rfl, by rfl, by decide⟩

/-- C7, amended: for a client with a live handle and a source path whose local stat
fails with a not-exist error, `UploadFile` fails with the error
`file not found: <path>` before delegating: the backend receives no call.  When the
stat succeeds or fails in another way, `UploadFile` delegates: the backend receives
one `FPutObject` call for the path. -/
theorem UploadFile_missing_source (c : Client) (h : MinioClient) (objectName filePath : String)
    (opts : List models.UploadOptions) (w : World) (hc : c.client = some h) :
    (IsNotExist (w.fs.stat filePath) = true →
      (c.UploadFile objectName filePath opts w).1
          = (none, some (Errorf_s "file not found: " filePath)) ∧
      issued w (c.UploadFile objectName filePath opts w).2 = [] ∧
      (c.UploadFile objectName filePath opts w).2.backend = w.backend) ∧
    (IsNotExist (w.fs.stat filePath) = false →
      issued w (c.UploadFile objectName filePath opts w).2
        = [.FPutObject c.bucketName objectName filePath (putOptionsOf opts)]) := by
  rw [UploadFile_live c h objectName filePath opts w hc]
  constructor
  · intro hne
    rw [hne]
    simp [issued, osStat, Logger.Print]
  · intro hne
    rw [hne]
    have hs := FPutObject_snd h c.bucketName objectName filePath (putOptionsOf opts)
      (osStat filePath w).2
    rcases hq : h.FPutObject c.bucketName objectName filePath (putOptionsOf opts)
        (osStat filePath w).2 with ⟨r, w1⟩
    rw [hq] at hs
    simp only at hs
    subst hs
    cases r <;> simp [issued, osStat, Logger.Print]

/-- A source path that is not there: the file-not-found error and no backend call. -/
theorem UploadFile_missing_source_witness :
    Sample.client.client = some Sample.handle ∧
    IsNotExist (Sample.guardedWorld.fs.stat "./missing.txt") = true ∧
    (Sample.client.UploadFile "test-file.txt" "./missing.txt" [] Sample.guardedWorld).1
      = (none, some (Errorf_s "file not found: " "./missing.txt")) ∧
    issued Sample.guardedWorld
      (Sample.client.UploadFile "test-file.txt" "./missing.txt" [] Sample.guardedWorld).2 = [] :=
  have t := (UploadFile_missing_source Sample.client Sample.handle "test-file.txt"
    "./missing.txt" [] Sample.guardedWorld rfl).1 (by rfl)
  ⟨rfl, by rfl, t.1, t.2.1⟩

/-! ## C8 -/

/-- The error of a failed copy or read is not the error a failed open gives for the
same cause. -/
theorem copy_error_ne_open_error (text : String) (e : GoError)
    (ht : text ++ "file download failed" ≠ "file download failed: file download failed") :
    Errorf_w text e ≠ Errorf_w_v errors.ErrDownloadFailed e := by
  intro heq
  simp only [Errorf_w, Errorf_w_v, GoError.wrapError.injEq] at heq
  obtain ⟨hmsg, he⟩ := heq
  subst he
  exact ht hmsg

/-- Wrapping a cause with `%w` adds no classification: the wrapper is a
`DownloadFailed` error exactly when the cause is. -/
theorem errorsIs_Errorf_w_kind (text : String) (e : GoError) :
    errorsIs (Errorf_w text e) errors.ErrDownloadFailed
      = errorsIs e errors.ErrDownloadFailed := by
  simp [Errorf_w, errorsIs, errors.ErrDownloadFailed]

/-- C8 fails as stated: the object is opened, the sink refuses the first byte with the
package's own `ErrDownloadFailed`, and the error `DownloadToWriter` returns for this
copy failure is classified `DownloadFailed`. -/
theorem DownloadToWriter_copy_failure_classified :
    (Sample.handle.GetObject "my-bucket" "test-file.txt" (getOptionsOf [])
        (Sample.world ["my-bucket"] fun _ => none)).1
      = .ok { data := [1, 2, 3], readErr := none } ∧
    (ioCopy Sample.relaySink { data := [1, 2, 3], readErr := none }).1
      = some errors.ErrDownloadFailed ∧
    (Sample.client.DownloadToWriter "test-file.txt" Sample.relaySink []
        (Sample.world ["my-bucket"] fun _ => none)).1.1
      = some (.wrapError "failed to copy object data: file download failed"
          errors.ErrDownloadFailed) ∧
    errorsIs (.wrapError "failed to copy object data: file download failed"
        errors.ErrDownloadFailed) errors.ErrDownloadFailed = true := by
  refine ⟨by rfl, by rfl, by rfl, by decide⟩

/-- C8, amended: for `DownloadToWriter` and `DownloadToMemory` on a client with a live
handle,
* when the get-object call fails with `e`, the error returned is
  `fmt.Errorf("%w: %v", ErrDownloadFailed, e)`, which is classified `DownloadFailed`;
  the sink is handed back as it was and the get call is the only backend call;
* when get-object succeeds and the copy (the read) fails with the cause `e`, the
  error returned is `fmt.Errorf("failed to copy object data: %w", e)` (`"failed to
  read object data: %w"`), not the error of a failed open: it wraps `e` and is
  classified `DownloadFailed` only when `e` itself is;
* on a copy or read failure and on success the stream is closed exactly once: the
  backend calls are the get and one close. -/
theorem streamed_download_failures (c : Client) (h : MinioClient) (objectName : String)
    (writer : Writer) (opts : List models.DownloadOptions) (w : World)
    (hc : c.client = some h) :
    (∀ e, (h.GetObject c.bucketName objectName (getOptionsOf opts) w).1 = .error e →
      (c.DownloadToWriter objectName writer opts w).1
          = (some (Errorf_w_v errors.ErrDownloadFailed e), writer) ∧
      (c.DownloadToMemory objectName writer opts w).1
          = (none, some (Errorf_w_v errors.ErrDownloadFailed e)) ∧
      errorsIs (Errorf_w_v errors.ErrDownloadFailed e) errors.ErrDownloadFailed = true ∧
      issued w (c.DownloadToWriter objectName writer opts w).2
          = [.GetObject c.bucketName objectName (getOptionsOf opts)] ∧
      issued w (c.DownloadToMemory objectName writer opts w).2
          = [.GetObject c.bucketName objectName (getOptionsOf opts)]) ∧
    (∀ object e, (h.GetObject c.bucketName objectName (getOptionsOf opts) w).1 = .ok object →
      (ioCopy writer object).1 = some e →
      (c.DownloadToWriter objectName writer opts w).1.1
          = some (Errorf_w "failed to copy object data: " e) ∧
      Errorf_w "failed to copy object data: " e ≠ Errorf_w_v errors.ErrDownloadFailed e ∧
      errorsIs (Errorf_w "failed to copy object data: " e) e = true ∧
      errorsIs (Errorf_w "failed to copy object data: " e) errors.ErrDownloadFailed
          = errorsIs e errors.ErrDownloadFailed ∧
      issued w (c.DownloadToWriter objectName writer opts w).2
          = [.GetObject c.bucketName objectName (getOptionsOf opts),
             .Close c.bucketName objectName]) ∧
    (∀ object e, (h.GetObject c.bucketName objectName (getOptionsOf opts) w).1 = .ok object →
      (ioReadAll object).2 = some e →
      (c.DownloadToMemory objectName writer opts w).1
          = (none, some (Errorf_w "failed to read object data: " e)) ∧
      Errorf_w "failed to read object data: " e ≠ Errorf_w_v errors.ErrDownloadFailed e ∧
      errorsIs (Errorf_w "failed to read object data: " e) e = true ∧
      errorsIs (Errorf_w "failed to read object data: " e) errors.ErrDownloadFailed
          = errorsIs e errors.ErrDownloadFailed ∧
      issued w (c.DownloadToMemory objectName writer opts w).2
          = [.GetObject c.bucketName objectName (getOptionsOf opts),
             .Close c.bucketName objectName]) ∧
    (∀ object, (h.GetObject c.bucketName objectName (getOptionsOf opts) w).1 = .ok object →
      (ioCopy writer object).1 = none →
      (c.DownloadToWriter objectName writer opts w).1 = (none, (ioCopy writer object).2) ∧
      issued w (c.DownloadToWriter objectName writer opts w).2
          = [.GetObject c.bucketName objectName (getOptionsOf opts),
             .Close c.bucketName objectName]) ∧
    (∀ object, (h.GetObject c.bucketName objectName (getOptionsOf opts) w).1 = .ok object →
      (ioReadAll object).2 = none →
      (c.DownloadToMemory objectName writer opts w).1 = (some (ioReadAll object).1, none) ∧
      issued w (c.DownloadToMemory objectName writer opts w).2
          = [.GetObject c.bucketName objectName (getOptionsOf opts),
             .Close c.bucketName objectName]) := by
  have hs := GetObject_snd h c.bucketName objectName (getOptionsOf opts) w
  rw [DownloadToWriter_live c h objectName writer opts w hc,
    DownloadToMemory_live c h objectName writer opts w hc]
  rcases hq : h.GetObject c.bucketName objectName (getOptionsOf opts) w with ⟨r, w1⟩
  rw [hq] at hs
  simp only at hs
  subst hs
  cases r with
  | error e1 =>
      refine ⟨?_, by simp, by simp, by simp, by simp⟩
      intro e he
      simp only [Except.error.injEq] at he
      subst he
      refine ⟨rfl, rfl, ?_, ?_, ?_⟩
      · simp [Errorf_w_v, errors.ErrDownloadFailed, errorsIs]
      · simp [issued, Logger.Print]
      · simp [issued, Logger.Print]
  | ok object1 =>
      refine ⟨by simp, ?_, ?_, ?_, ?_⟩
      · intro object e hobj hcopy
        simp only [Except.ok.injEq] at hobj
        subst hobj
        dsimp only
        rcases hq2 : ioCopy writer object1 with ⟨r2, writer1⟩
        rw [hq2] at hcopy
        simp only at hcopy
        subst hcopy
        refine ⟨rfl, copy_error_ne_open_error _ e (by decide), errorsIs_Errorf_w _ e,
          errorsIs_Errorf_w_kind _ e, ?_⟩
        simp [issued, objectClose, Logger.Print]
      · intro object e hobj hread
        simp only [Except.ok.injEq] at hobj
        subst hobj
        dsimp only
        rcases hq2 : ioReadAll object1 with ⟨data, r2⟩
        rw [hq2] at hread
        simp only at hread
        subst hread
        refine ⟨rfl, copy_error_ne_open_error _ e (by decide), errorsIs_Errorf_w _ e,
          errorsIs_Errorf_w_kind _ e, ?_⟩
        simp [issued, objectClose, Logger.Print]
      · intro object hobj hcopy
        simp only [Except.ok.injEq] at hobj
        subst hobj
        dsimp only
        rcases hq2 : ioCopy writer object1 with ⟨r2, writer1⟩
        rw [hq2] at hcopy
        simp only at hcopy
        subst hcopy
        refine ⟨rfl, ?_⟩
        simp [issued, objectClose]
      · intro object hobj hread
        simp only [Except.ok.injEq] at hobj
        subst hobj
        dsimp only
        rcases hq2 : ioReadAll object1 with ⟨data, r2⟩
        rw [hq2] at hread
        simp only at hread
        subst hread
        refine ⟨rfl, ?_⟩
        simp [issued, objectClose]

/-- A sink that is full after two bytes: the copy failure wraps the sink's error and the
stream is closed once. -/
theorem streamed_download_failures_witness :
    Sample.client.client = some Sample.handle ∧
    (ioCopy Sample.fullSink { data := [1, 2, 3], readErr := none }).1 = some (.errno 28) ∧
    (Sample.client.DownloadToWriter "test-file.txt" Sample.fullSink []
        (Sample.world ["my-bucket"] fun _ => none)).1.1
      = some (Errorf_w "failed to copy object data: " (.errno 28)) ∧
    issued (Sample.world ["my-bucket"] fun _ => none)
        (Sample.client.DownloadToWriter "test-file.txt" Sample.fullSink []
          (Sample.world ["my-bucket"] fun _ => none)).2
      = [.GetObject "my-bucket" "test-file.txt" (getOptionsOf []),
         .Close "my-bucket" "test-file.txt"] :=
  have t := (streamed_download_failures Sample.client Sample.handle "test-file.txt"
    Sample.fullSink [] (Sample.world ["my-bucket"] fun _ => none) rfl).2.1
      { data := [1, 2, 3], readErr := none } (.errno 28) (by rfl) (by rfl)
  ⟨rfl, by rfl, t.1, t.2.2.2.2⟩

/-! ## C9 -/

/-- The options the uploads build are the ones the specification words. -/
theorem putOptionsOf_eq_spec (opts : List models.UploadOptions) :
    putOptionsOf opts = specPutOptions opts.head? := by
  cases opts with
  | nil => rfl
  | cons o rest =>
      rcases o with ⟨ct, md⟩
      cases md with
      | none =>
          by_cases hct : ct = ""
          · simp [putOptionsOf, specPutOptions, hct]
          · simp [putOptionsOf, specPutOptions, hct]
      | some m =>
          by_cases hct : ct = ""
          · simp [putOptionsOf, specPutOptions, hct]
          · simp [putOptionsOf, specPutOptions, hct]

/-- C9: for a client with a live handle and every list of options (none, one, or
more, of which the first counts), the put options `UploadFile` hands to `FPutObject`
and those `UploadFromReader` hands to `PutObject` are the same value, the translation
the specification words: content type as supplied when non-empty and unset
otherwise, metadata as supplied when non-nil and unset otherwise, all defaults when
no options are supplied.  (`UploadFile` reaches the backend when the source path is
not reported missing.) -/
theorem upload_options_same (c : Client) (h : MinioClient) (objectName filePath : String)
    (reader : List Nat) (size : Int) (opts : List models.UploadOptions) (w : World)
    (hc : c.client = some h) (hstat : IsNotExist (w.fs.stat filePath) = false) :
    issued w (c.UploadFile objectName filePath opts w).2
      = [.FPutObject c.bucketName objectName filePath (specPutOptions opts.head?)] ∧
    issued w (c.UploadFromReader objectName reader size opts w).2
      = [.PutObject c.bucketName objectName reader size (specPutOptions opts.head?)] ∧
    specPutOptions none = { ContentType := "", UserMetadata := none } ∧
    (∀ o : models.UploadOptions,
      (specPutOptions (some o)).ContentType = (if o.ContentType = "" then "" else o.ContentType) ∧
      (specPutOptions (some o)).UserMetadata = o.UserMetadata) := by
  refine ⟨?_, ?_, rfl, ?_⟩
  · rw [UploadFile_live c h objectName filePath opts w hc, hstat, ← putOptionsOf_eq_spec]
    have hs := FPutObject_snd h c.bucketName objectName filePath (putOptionsOf opts)
      (osStat filePath w).2
    rcases hq : h.FPutObject c.bucketName objectName filePath (putOptionsOf opts)
        (osStat filePath w).2 with ⟨r, w1⟩
    rw [hq] at hs
    simp only at hs
    subst hs
    cases r <;> simp [issued, osStat, Logger.Print]
  · rw [UploadFromReader_live c h objectName reader size opts w hc, ← putOptionsOf_eq_spec]
    have hs := PutObject_snd h c.bucketName objectName reader size (putOptionsOf opts) w
    rcases hq : h.PutObject c.bucketName objectName reader size (putOptionsOf opts) w
      with ⟨r, w1⟩
    rw [hq] at hs
    simp only at hs
    subst hs
    cases r <;> simp [issued, Logger.Print]
  · intro o
    rcases o with ⟨ct, md⟩
    cases md <;> simp [specPutOptions]

/-- The options of the repository's example reach both put calls unchanged. -/
theorem upload_options_same_witness :
    Sample.client.client = some Sample.handle ∧
    IsNotExist ((Sample.world ["my-bucket"] fun _ => none).fs.stat "./example.txt") = false ∧
    issued (Sample.world ["my-bucket"] fun _ => none)
        (Sample.client.UploadFile "test-file.txt" "./example.txt"
          [{ ContentType := "text/plain", UserMetadata := some [("uploaded-by", "demo-app")] }]
          (Sample.world ["my-bucket"] fun _ => none)).2
      = [.FPutObject "my-bucket" "test-file.txt" "./example.txt"
          { ContentType := "text/plain", UserMetadata := some [("uploaded-by", "demo-app")] }] ∧
    issued (Sample.world ["my-bucket"] fun _ => none)
        (Sample.client.UploadFromReader "test-file.txt" [1, 2, 3] 3
          [{ ContentType := "text/plain", UserMetadata := some [("uploaded-by", "demo-app")] }]
          (Sample.world ["my-bucket"] fun _ => none)).2
      = [.PutObject "my-bucket" "test-file.txt" [1, 2, 3] 3
          { ContentType := "text/plain", UserMetadata := some [("uploaded-by", "demo-app")] }] :=
  have t := upload_options_same Sample.client Sample.handle "test-file.txt" "./example.txt"
    [1, 2, 3] 3
    [{ ContentType := "text/plain", UserMetadata := some [("uploaded-by", "demo-app")] }]
    (Sample.world ["my-bucket"] fun _ => none) rfl (by rfl)
  ⟨rfl, by rfl, t.1, t.2.1⟩

/-! ## C10 -/

/-- C10: for every client and every bucket name `b`, the client `SetBucket b` leaves
has `b` as its current bucket, whatever the call returned (success, an error from the
existence check or the create, `ErrClientNotInitialized` for a nil handle, or no
return at all); the handle, the configuration and the logger are as before.  Every
existence query issued is for `b`; with a live handle one is issued, first; with a
nil handle the world is untouched. -/
theorem SetBucket_frame (c : Client) (b : String) (w : World) :
    (c.SetBucket b w).1.2.bucketName = b ∧
    (c.SetBucket b w).1.2.client = c.client ∧
    (c.SetBucket b w).1.2.config = c.config ∧
    (c.SetBucket b w).1.2.logger = c.logger ∧
    (∀ n, Call.BucketExists n ∈ issued w (c.SetBucket b w).2 → n = b) ∧
    (∀ h, c.client = some h →
      (issued w (c.SetBucket b w).2).head? = some (.BucketExists b)) ∧
    (c.client = none →
      (c.SetBucket b w).1.1 = .ret (some errors.ErrClientNotInitialized) ∧
      (c.SetBucket b w).2 = w) ∧
    (∀ h e, c.client = some h → (h.BucketExists b w).1 = .error e →
      (c.SetBucket b w).1 = (.ret (some (Errorf_w "failed to check bucket existence: " e)),
        { c with bucketName := b })) := by
  refine ⟨rfl, rfl, rfl, rfl, ?_, ?_, ?_, ?_⟩
  · intro n
    unfold Client.SetBucket Client.EnsureBucketExists
    dsimp only
    cases hcl : c.client with
    | none => simp
    | some h =>
        dsimp only
        have hs := BucketExists_snd h b w
        rcases hq : h.BucketExists b w with ⟨r, w1⟩
        rw [hq] at hs
        simp only at hs
        subst hs
        cases r with
        | error e => simp [issued, Logger.Print]
        | ok ex =>
            cases ex with
            | true => simp [issued]
            | false =>
                cases hcfg : c.config with
                | none => simp [issued]
                | some config =>
                    have hm := MakeBucket_calls h b
                      (if config.Region = "" then "us-east-1" else config.Region)
                      (w.record (.BucketExists b))
                    rcases hq2 : h.MakeBucket b
                        (if config.Region = "" then "us-east-1" else config.Region)
                        (w.record (.BucketExists b)) with ⟨r2, w2⟩
                    rw [hq2] at hm
                    simp only [record_calls] at hm
                    cases r2 with
                    | some e => simp [issued, Logger.Print, hq2, hm]
                    | none => simp [issued, hq2, hm]
  · intro h hcl
    unfold Client.SetBucket Client.EnsureBucketExists
    dsimp only
    rw [hcl]
    dsimp only
    have hs := BucketExists_snd h b w
    rcases hq : h.BucketExists b w with ⟨r, w1⟩
    rw [hq] at hs
    simp only at hs
    subst hs
    cases r with
    | error e => simp [issued, Logger.Print]
    | ok ex =>
        cases ex with
        | true => simp [issued]
        | false =>
            cases hcfg : c.config with
            | none => simp [issued]
            | some config =>
                have hm := MakeBucket_calls h b
                  (if config.Region = "" then "us-east-1" else config.Region)
                  (w.record (.BucketExists b))
                rcases hq2 : h.MakeBucket b
                    (if config.Region = "" then "us-east-1" else config.Region)
                    (w.record (.BucketExists b)) with ⟨r2, w2⟩
                rw [hq2] at hm
                simp only [record_calls] at hm
                cases r2 with
                | some e => simp [issued, Logger.Print, hq2, hm]
                | none => simp [issued, hq2, hm]
  · intro hcl
    unfold Client.SetBucket Client.EnsureBucketExists
    dsimp only
    rw [hcl]
    exact ⟨rfl, rfl⟩
  · intro h e hcl he
    unfold Client.SetBucket Client.EnsureBucketExists
    dsimp only
    rw [hcl]
    dsimp only
    rcases hq : h.BucketExists b w with ⟨r, w1⟩
    rw [hq] at he
    simp only at he
    subst he
    rfl

/-- Switching to `other-bucket` with the backend out of reach: an error comes back and
the client's bucket is `other-bucket` all the same. -/
theorem SetBucket_frame_witness :
    (Sample.client.SetBucket "other-bucket" (Sample.world ["my-bucket"] Sample.offline)).1
      = (.ret (some (Errorf_w "failed to check bucket existence: " Sample.unreachable)),
          { Sample.client with bucketName := "other-bucket" }) ∧
    (Sample.client.SetBucket "other-bucket"
        (Sample.world ["my-bucket"] Sample.offline)).1.2.bucketName = "other-bucket" ∧
    (issued (Sample.world ["my-bucket"] Sample.offline)
        (Sample.client.SetBucket "other-bucket"
          (Sample.world ["my-bucket"] Sample.offline)).2).head?
      = some (.BucketExists "other-bucket") :=
  have t := SetBucket_frame Sample.client "other-bucket"
    (Sample.world ["my-bucket"] Sample.offline)
  ⟨t.2.2.2.2.2.2.2 Sample.handle Sample.unreachable rfl (by rfl), t.1,
    t.2.2.2.2.2.1 Sample.handle rfl⟩

end MinioSdk
